import Mathlib

/-!
Verification of the chatroom server (`src/main.go`) against its
natural-language specification.  The Go source is shallowly embedded:
pure helpers become Lean functions on `String`/`List`, the per-connection
handler and the broadcast dispatcher become explicit state-passing
functions over oracles for transport results, and the shutdown scheduler
becomes a small operational model whose timers carry an explicit status
(`pending`/`firing`/`fired`/`stopped`) mirroring the semantics of
`time.Timer.Stop`.  Definitions come first, all theorems follow.
-/

namespace Chatroom

/-! ## String helpers shared by several components -/

/-- Go `unicode.IsSpace`: the Unicode White_Space code points
(`\t`, `\n`, `\v`, `\f`, `\r`, space, NEL, NBSP, OGHAM SPACE MARK,
U+2000–U+200A, LINE/PARAGRAPH SEPARATOR, NARROW NBSP, MMSP, IDEOGRAPHIC
SPACE), expressed over the code point `c.toNat`. -/
def isGoSpace (c : Char) : Bool :=
  let n := c.toNat
  n == 9 || n == 10 || n == 11 || n == 12 || n == 13 || n == 32 ||
  n == 0x85 || n == 0xA0 || n == 0x1680 ||
  (0x2000 ≤ n && n ≤ 0x200A) || n == 0x2028 || n == 0x2029 ||
  n == 0x202F || n == 0x205F || n == 0x3000

/-- Go `strings.TrimSpace`: drop leading and trailing `unicode.IsSpace`
characters. -/
def goTrimSpace (s : String) : String :=
  String.mk (((s.toList.dropWhile isGoSpace).reverse.dropWhile isGoSpace).reverse)

/-- Go `unicode.ToLower` restricted to the code points that occur in this
program's comparisons: ASCII letters `A`–`Z` are shifted down by 32 (which is
exactly `unicode.ToLower` on ASCII; characters without case, such as digits,
punctuation and the CJK range, are left unchanged, also matching Go). -/
def goToLowerChar (c : Char) : Char :=
  if 65 ≤ c.toNat ∧ c.toNat ≤ 90 then Char.ofNat (c.toNat + 32) else c

/-- Go `strings.ToLower`, applied character by character. -/
def goToLower (s : String) : String :=
  String.mk (s.toList.map goToLowerChar)

/-- Go `strings.HasPrefix p s` (here argument order: pattern first). -/
def strHasPrefix (p s : String) : Bool :=
  List.isPrefixOf p.toList s.toList

/-- Go `strconv.Atoi`: optional sign, then at least one ASCII digit, and the
value must fit in a 64-bit `int`; everything else is an error (`none`). -/
def goAtoi (s : String) : Option Int :=
  let core : Int × List Char :=
    match s.toList with
    | '+' :: rest => (1, rest)
    | '-' :: rest => (-1, rest)
    | l => (1, l)
  let sign := core.1
  let digits := core.2
  if digits.isEmpty then none
  else if digits.all (fun c => 48 ≤ c.toNat && c.toNat ≤ 57) then
    let n : Nat := digits.foldl (fun acc c => acc * 10 + (c.toNat - 48)) 0
    let v : Int := sign * n
    if -(2 ^ 63) ≤ v ∧ v < 2 ^ 63 then some v else none
  else none

/-- Split a character list at every occurrence of `sep`; `[]` yields `[[]]`,
matching Go `strings.Split` (which is only ever called here with the
one-character separators `"."` and `":"`). -/
def splitOnChar (sep : Char) : List Char → List (List Char)
  | [] => [[]]
  | c :: rest =>
    match splitOnChar sep rest with
    | [] => if c == sep then [[], []] else [[c]]
    | h :: t => if c == sep then [] :: h :: t else (c :: h) :: t

/-- Go `strings.Split s sep` for a one-character separator. -/
def goSplit (s : String) (sep : Char) : List String :=
  (splitOnChar sep s.toList).map String.mk

/-! ## `maskIP` (src/main.go lines 110–126) -/

/-- Second half of `maskIP`: the IPv6 branch.  If the address contains at
least two `:` separators, keep the first two segments and append `:*`;
otherwise return the input unchanged (source lines 118–125). -/
def maskIPv6Part (ip : String) : String :=
  if 2 ≤ ip.toList.count ':' then
    let parts := goSplit ip ':'
    if 2 ≤ parts.length then parts.getD 0 "" ++ ":" ++ parts.getD 1 "" ++ ":*"
    else ip
  else ip

/-- Go `maskIP` (source lines 110–126).  An input with exactly three dots is
split on `"."` and rebuilt as `parts[0] + ":" + parts[1] + ":*"`; otherwise
the IPv6 branch runs. -/
def maskIP (ip : String) : String :=
  if ip.toList.count '.' == 3 then
    let parts := goSplit ip '.'
    if parts.length == 4 then parts.getD 0 "" ++ ":" ++ parts.getD 1 "" ++ ":*"
    else maskIPv6Part ip
  else maskIPv6Part ip

/-! ## Message envelopes (src/main.go lines 50–58, 380–388, 404–412,
419–423, 433–441, 445–458, 593–599) -/

/-- The wire `Message` struct (source lines 50–58). -/
structure Envelope where
  type : String
  content : String
  userID : String
  ip : String
  region : String
  time : String
  color : String
deriving DecidableEq, Repr

/-- Per-client metadata held in the registry (source lines 41–47; the
transport handle is carried separately in the models below). -/
structure ClientInfo where
  ip : String
  region : String
  userID : String
  color : String
deriving DecidableEq, Repr

/-- The join broadcast (source lines 380–388); the handler computes
`maskedIP := maskIP clientIP` once (line 288) and places only the masked
form in the envelope. -/
def mkJoinMsg (clientIP clientRegion userID color now : String) : Envelope :=
  let maskedIP := maskIP clientIP
  { type := "join"
  , content := "【系统】" ++ maskedIP ++ " | " ++ clientRegion ++ " | " ++ userID ++ " 加入聊天室"
  , userID := userID, ip := maskedIP, region := clientRegion, time := now, color := color }

/-- The abnormal-leave broadcast (source lines 404–412). -/
def mkAbnormalLeaveMsg (clientIP clientRegion userID color now : String) : Envelope :=
  let maskedIP := maskIP clientIP
  { type := "leave"
  , content := "【系统】" ++ maskedIP ++ " | " ++ clientRegion ++ " | " ++ userID ++ " 异常离开聊天室"
  , userID := userID, ip := maskedIP, region := clientRegion, time := now, color := color }

/-- The voluntary-leave broadcast (source lines 433–441). -/
def mkVoluntaryLeaveMsg (clientIP clientRegion userID color now : String) : Envelope :=
  let maskedIP := maskIP clientIP
  { type := "leave"
  , content := "【系统】" ++ maskedIP ++ " | " ++ clientRegion ++ " | " ++ userID ++ " 主动退出聊天室"
  , userID := userID, ip := maskedIP, region := clientRegion, time := now, color := color }

/-- A chat broadcast: the handler stamps every inbound message with
`msg.IP = maskedIP` (lines 419–423) and the chat branch sets the type and
trimmed content (lines 593–599). -/
def mkChatMsg (clientIP clientRegion userID color now content : String) : Envelope :=
  let maskedIP := maskIP clientIP
  { type := "chat", content := goTrimSpace content
  , userID := userID, ip := maskedIP, region := clientRegion, time := now, color := color }

/-- Go `fmt` left-justified string padding `%-w s` (width counted in runes). -/
def padRight (s : String) (w : Nat) : String :=
  s ++ String.mk (List.replicate (w - s.length) ' ')

/-- One row of the `/online` table (source line 450): the row is formatted
from `maskIP c.IP`, never from the raw `c.IP`. -/
def onlineRow (c : ClientInfo) : String :=
  padRight (maskIP c.ip) 15 ++ " | " ++ padRight c.region 28 ++ " | " ++ c.userID ++ "\n"

/-- The same row, as a function of an already-masked address: factoring
`onlineRow` through this function shows the raw address reaches the reply
only through `maskIP`. -/
def onlineRowOf (maskedIP region userID : String) : String :=
  padRight maskedIP 15 ++ " | " ++ padRight region 28 ++ " | " ++ userID ++ "\n"

/-! ## Password verification (src/main.go lines 297–327) -/

/-- Outcome of one iteration of the password loop: `accepted` breaks out to
the identity step; both `reprompt` outcomes write a fresh `password` prompt
and keep the loop (and the connection) alive. -/
inductive PwdOutcome
  | accepted
  | repromptEmpty
  | repromptWrong
deriving DecidableEq, Repr

/-- One iteration of the password loop on a successfully parsed frame
(source lines 304–326): lower-case then trim the content; empty is
re-prompted; a match against the trimmed, lower-cased secret is accepted;
anything else is re-prompted as wrong. -/
def passwordStep (fixedPassword content : String) : PwdOutcome :=
  let pwd := goTrimSpace (goToLower content)
  if pwd == "" then .repromptEmpty
  else if pwd == goTrimSpace (goToLower fixedPassword) then .accepted
  else .repromptWrong

/-! ## Identity setup (src/main.go lines 329–347 and 142–148) -/

/-- The fixed adjective word list (source line 72). -/
def adjectives : List String :=
  ["快乐", "聪明", "安静", "活泼", "神秘", "勇敢", "幽默", "优雅", "可爱", "帅气"]

/-- The fixed noun word list (source line 73). -/
def nouns : List String :=
  ["小猫", "小狗", "熊猫", "老虎", "兔子", "狐狸", "海豚", "老鹰", "狮子", "蝴蝶"]

/-- `generateRandomID` (source lines 143–148): `rand.Intn` draws are passed
in as oracle inputs `aIdx < 10`, `nIdx < 10`, `r < 900`; the numeral is
`r + 100`. -/
def generateRandomID (aIdx nIdx r : Nat) : String :=
  let adj := adjectives.getD aIdx ""
  let noun := nouns.getD nIdx ""
  let num := r + 100
  adj ++ noun ++ toString num

/-- The custom-identity sanitization (source line 346):
`strings.ReplaceAll(strings.ReplaceAll(customID, "\n", ""), "\r", "")` —
deleting every occurrence of a single character twice over is filtering
both characters out. -/
def sanitizeID (s : String) : String :=
  String.mk (s.toList.filter (fun c => c != '\n' && c != '\r'))

/-- The identity-setup step (source lines 340–347): trim the frame; an empty
result draws a random identity from the word lists, a non-empty result is
sanitized and used as the identity.  No registry is consulted, so duplicate
identities are permitted by construction. -/
def identityStep (content : String) (aIdx nIdx r : Nat) : String :=
  let customID := goTrimSpace content
  if customID == "" then generateRandomID aIdx nIdx r
  else sanitizeID customID

/-! ## Geolocation lookup `getIPRegion` (src/main.go lines 167–213) -/

/-- The literal prefix list the code short-circuits on (source line 169). -/
def localIPPrefixes : List String := ["127.0.0.1", "192.168.", "10.", "172."]

/-- Oracle for the external HTTP/JSON collaborators of `getIPRegion`:
whether `client.Get` errors, whether reading the body errors, the HTTP
status code, and the result of JSON-unmarshalling the (GBK-decoded) body —
`none` for an unmarshal error, `some city` for the parsed `city` field.
(A GBK-decode failure merely falls back to the raw bytes in the source and
is therefore absorbed into the unmarshal outcome.) -/
structure NetOracle where
  getErr : Bool
  bodyReadErr : Bool
  statusCode : Int
  parsedCity : Option String
deriving DecidableEq, Repr

/-- Result of a lookup, together with the observation whether the code
reached the network call (source line 181). -/
structure RegionResult where
  region : String
  networkCalled : Bool
deriving DecidableEq, Repr

/-- `getIPRegion` (source lines 167–213): prefix short-circuit, then
`client.Get`, body read / status check, JSON unmarshal, and the empty/null
city fallback.  Every failure is converted to a sentinel string; the
function never propagates an error. -/
def getIPRegion (ip : String) (net : NetOracle) : RegionResult :=
  if localIPPrefixes.any (fun p => strHasPrefix p ip) then
    ⟨"本地/内网IP-无公网归属", false⟩
  else if net.getErr then ⟨"归属地查询-网络超时", true⟩
  else if net.bodyReadErr || net.statusCode != 200 then ⟨"归属地查询-接口返回失败", true⟩
  else
    match net.parsedCity with
    | none => ⟨"归属地查询-解析失败", true⟩
    | some rawCity =>
      let city := goTrimSpace rawCity
      if city == "" || city == "null" then ⟨"未知城市", true⟩ else ⟨city, true⟩

/-- Modelled from the spec: the IPv4 loopback range 127.0.0.0/8 named by the
spec's phrase "private/loopback address ranges". -/
def isLoopbackV4 (ip : String) : Bool := strHasPrefix "127." ip

/-! ## Broadcast fan-out (src/main.go lines 216–237) -/

/-- Result of fanning one dequeued envelope out over the snapshot: the
recipients attempted (in order), the transports closed, and the registry
left behind.  Connections are identified by `Nat` handles. -/
structure FanoutRes where
  attempted : List Nat
  closed : List Nat
  registry : List Nat
deriving DecidableEq, Repr

/-- The dispatcher loop body over the snapshot (source lines 227–235):
`ok conn` is the outcome of `conn.WriteJSON msg`; a failed write closes the
connection and deletes it from the registry, then the loop continues with
the remaining snapshot entries. -/
def fanoutGo (ok : Nat → Bool) (registry : List Nat) : List Nat → FanoutRes
  | [] => ⟨[], [], registry⟩
  | c :: rest =>
    if ok c then
      let r := fanoutGo ok registry rest
      ⟨c :: r.attempted, r.closed, r.registry⟩
    else
      let r := fanoutGo ok (registry.filter (fun x => x != c)) rest
      ⟨c :: r.attempted, c :: r.closed, r.registry⟩

/-- One iteration of `Broadcaster` for one dequeued envelope (source lines
217–236): the snapshot is the registry as copied under the read lock
(lines 218–224), then the snapshot is walked. -/
def fanout (ok : Nat → Bool) (clients : List Nat) : FanoutRes :=
  fanoutGo ok clients clients

/-! ## Shutdown scheduler (src/main.go lines 478–592)

Time is measured in whole minutes from an arbitrary origin.  A timer is a
pool entry with an absolute fire time, the kind of callback it runs, and a
status mirroring `time.Timer`: `Stop` moves a `pending` timer to `stopped`
and does nothing to a timer whose callback is already `firing` or `fired`
— exactly the Go semantics, where `Stop` neither prevents nor waits for a
callback that has already started.  The `gen` field is ghost
instrumentation recording which `/close` plan armed the timer; it has no
influence on behaviour and only lets theorems speak about "the superseded
plan's timers". -/

/-- Which closure a timer runs (source lines 537–555, 559–566, 571–590). -/
inductive TimerKind
  | remind5
  | remind1
  | finalShutdown
deriving DecidableEq, Repr

inductive TStatus
  | pending
  | firing
  | fired
  | stopped
deriving DecidableEq, Repr

structure RTimer where
  gen : Nat
  fireAt : Nat
  kind : TimerKind
  status : TStatus
deriving DecidableEq, Repr

/-- Notices pushed onto the broadcast channel by the `/close` machinery,
tagged with the ghost generation of the plan that published them. -/
inductive NoticeKind
  | scheduled (minutes : Nat)
  | fiveMin
  | oneMin
  | finalNote
deriving DecidableEq, Repr, BEq

/-- The scheduler-relevant server state: the timer pool (timers addressed by
index), the `s.shutdownTimers` slice (indices), `s.shutdownTime`,
`s.shutdownStartTime`, the ghost plan generation, the notices broadcast so
far, and whether `os.Exit` has run. -/
structure Srv where
  pool : List RTimer
  slice : List Nat
  shutdownTime : Int
  startTime : Nat
  gen : Nat
  published : List (Nat × NoticeKind)
  exited : Bool
deriving DecidableEq, Repr

def srvInit : Srv := ⟨[], [], 0, 0, 0, [], false⟩

/-- `timer.Stop()` on one slice entry (source lines 516–520): only a
`pending` timer is stopped; a `firing` or `fired` timer is unaffected. -/
def stopOne (pool : List RTimer) (id : Nat) : List RTimer :=
  match pool.get? id with
  | some t => if t.status = .pending then pool.set id { t with status := .stopped } else pool
  | none => pool

/-- The timers armed by an accepted `/close minutes` (source lines 536–568
and 571–591), as (absolute fire time, kind) pairs in arming order: the
`minutes-5` reminder when `minutes > 5`, else the `minutes-1` reminder when
`minutes > 1`, then always the terminal timer at `minutes`. -/
def armedTimerList (now minutes : Nat) : List (Nat × TimerKind) :=
  (if 5 < minutes then [(now + (minutes - 5), .remind5)]
   else if 1 < minutes then [(now + (minutes - 1), .remind1)]
   else [])
  ++ [(now + minutes, .finalShutdown)]

/-- The body of an accepted `/close minutes` (source lines 515–591): stop
every timer in the slice, clear the slice, record the new plan, broadcast
the confirmation, and arm the new plan's timers. -/
def closeSchedule (s : Srv) (now minutes : Nat) : Srv :=
  let pool := s.slice.foldl stopOne s.pool
  let gen := s.gen + 1
  let newTimers := (armedTimerList now minutes).map
    (fun p => RTimer.mk gen p.1 p.2 .pending)
  { pool := pool ++ newTimers
  , slice := (List.range newTimers.length).map (fun i => i + pool.length)
  , shutdownTime := (minutes : Int)
  , startTime := now
  , gen := gen
  , published := s.published ++ [(gen, .scheduled minutes)]
  , exited := false }

/-- The Go runtime starts a timer's callback: a `pending` timer (at its
fire time) becomes `firing`.  From this moment `Stop` can no longer
suppress it. -/
def beginFire (s : Srv) (id : Nat) : Srv :=
  match s.pool.get? id with
  | some t =>
    if t.status = .pending then
      { s with pool := s.pool.set id { t with status := .firing } }
    else s
  | none => s

/-- The callback body runs to completion (source lines 537–555, 559–566,
571–590): the five-minute reminder broadcasts its notice and arms a fresh
one-minute reminder four minutes later, appending it to `s.shutdownTimers`;
the one-minute reminder broadcasts its notice; the terminal timer
broadcasts the final notice and (after the grace sleep and closing every
client) exits the process. -/
def finishFire (s : Srv) (id : Nat) : Srv :=
  match s.pool.get? id with
  | some t =>
    if t.status = .firing then
      let pool1 := s.pool.set id { t with status := .fired }
      match t.kind with
      | .remind5 =>
        { s with pool := pool1 ++ [RTimer.mk t.gen (t.fireAt + 4) .remind1 .pending]
               , slice := s.slice ++ [pool1.length]
               , published := s.published ++ [(t.gen, .fiveMin)] }
      | .remind1 =>
        { s with pool := pool1, published := s.published ++ [(t.gen, .oneMin)] }
      | .finalShutdown =>
        { s with pool := pool1, published := s.published ++ [(t.gen, .finalNote)]
               , exited := true }
    else s
  | none => s

/-- The interleaving in which `/close 10` is issued at minute 0, the
`minutes-5` reminder's callback starts at minute 5, `/close 3` is accepted
while that callback is in flight, and the callback then completes —
`timer.Stop()` cannot suppress it. -/
def raceRun : Srv :=
  finishFire (closeSchedule (beginFire (closeSchedule srvInit 0 10) 0) 5 3) 0

/-! ## The `/close` command handler (src/main.go lines 478–592) -/

/-- The private reply sent for an invalid `/close` argument
(source line 508). -/
def invalidMinutesMsg : String := "【系统通知】请输入有效的分钟数"

def remainingMsg (r : Int) : String :=
  "【系统通知】服务器将在 " ++ toString r ++ " 分钟后关闭"

def unscheduledMsg : String := "【系统通知】服务器未设置关闭时间"

/-- The no-argument `/close` status reply (source lines 481–501):
`elapsedMinutes` is `int(time.Since(s.shutdownStartTime).Minutes())`.
A positive `shutdownTime` reports the remaining minutes floored at zero,
otherwise the unscheduled notice is returned. -/
def statusReply (shutdownTime elapsedMinutes : Int) : String :=
  if 0 < shutdownTime then
    let remaining := shutdownTime - elapsedMinutes
    let remaining := if remaining < 0 then 0 else remaining
    remainingMsg remaining
  else unscheduledMsg

/-- Outcome of `/close <arg>`: the (possibly unchanged) scheduler state and
the private replies written back to the issuing client only. -/
structure CloseOutcome where
  state : Srv
  privateReplies : List String
deriving DecidableEq, Repr

/-- The two-token `/close` branch (source lines 502–592): parse the
argument; a parse error or non-positive value replies privately and leaves
the state untouched (`continue`); a positive value runs `closeSchedule`. -/
def handleCloseArg (s : Srv) (now : Nat) (arg : String) : CloseOutcome :=
  match goAtoi arg with
  | none => ⟨s, [invalidMinutesMsg]⟩
  | some minutes =>
    if minutes ≤ 0 then ⟨s, [invalidMinutesMsg]⟩
    else ⟨closeSchedule s now minutes.toNat, []⟩

/-! ## The uninterrupted timeline of one accepted `/close` plan -/

/-- Observable events of the shutdown machinery, for a plan that runs
without being superseded. -/
inductive ShutdownEvent
  | fiveMinNotice
  | oneMinNotice
  | finalNotice
  | graceSleep
  | closeAllConns
  | exitProcess
deriving DecidableEq, Repr

/-- The events a timer armed for absolute minute `t` produces when it runs
undisturbed.  The five-minute reminder broadcasts its notice and arms the
nested one-minute reminder for four minutes later (source lines 537–555);
the one-minute reminder broadcasts its notice (lines 559–566); the terminal
timer broadcasts the final notice, sleeps the one-second grace period,
closes every registered connection under the lock, and calls `os.Exit(0)`
(lines 571–590). -/
def timerEvents : Nat → TimerKind → List (Nat × ShutdownEvent)
  | t, .remind5 => [(t, .fiveMinNotice), (t + 4, .oneMinNotice)]
  | t, .remind1 => [(t, .oneMinNotice)]
  | t, .finalShutdown =>
      [(t, .finalNotice), (t, .graceSleep), (t, .closeAllConns), (t, .exitProcess)]

/-- The full timeline of `/close minutes` accepted at minute 0 and never
superseded. -/
def scheduleEvents (minutes : Nat) : List (Nat × ShutdownEvent) :=
  ((armedTimerList 0 minutes).map (fun p => timerEvents p.1 p.2)).flatten

/-! ## Registration and the handler's exit paths
(src/main.go lines 360–444 and 593–601)

The registry `s.clients` is modelled as the list of registered connection
handles (`Nat`); the handler for handle `conn` is modelled from the moment
of registration (line 362), driven by an oracle: whether the welcome write
succeeds (line 374) and the sequence of `ReadJSON` results thereafter
(line 395).  Scheduling side effects of `/close` are modelled separately
above; here only the registry and the broadcast kinds matter. -/

/-- One `conn.ReadJSON` outcome in the message loop. -/
inductive FrameRes
  | frame (content : String)
  | readErr
deriving DecidableEq, Repr

/-- What the handler left behind: the registry, whether the handler
function has returned, and the kinds of envelopes it broadcast
(chronological). -/
structure HandlerResult where
  registry : List Nat
  returned : Bool
  broadcasts : List String
deriving DecidableEq, Repr

/-- The message loop (source lines 393–601).  A read error deletes the
handle and broadcasts the abnormal leave (lines 395–416); `/exit` and
`/quit` delete the handle and broadcast the voluntary leave (lines
427–444); `/online`, `/help`, `/color` and `/close` only reply privately or
touch the scheduler (lines 445–592); non-blank text is broadcast as chat
(lines 593–600); an exhausted oracle means the handler is still blocked in
`ReadJSON` and has not returned. -/
def handleFrames (reg : List Nat) (conn : Nat) : List FrameRes → HandlerResult
  | [] => ⟨reg, false, []⟩
  | .readErr :: _ =>
    ⟨reg.filter (fun x => x != conn), true, ["leave"]⟩
  | .frame content :: rest =>
    let inputContent := goTrimSpace content
    if inputContent == "/exit" || inputContent == "/quit" then
      ⟨reg.filter (fun x => x != conn), true, ["leave"]⟩
    else if inputContent == "/online" then handleFrames reg conn rest
    else if inputContent == "/help" then handleFrames reg conn rest
    else if inputContent == "/color" then handleFrames reg conn rest
    else if strHasPrefix "/close" inputContent then handleFrames reg conn rest
    else if inputContent != "" then
      let r := handleFrames reg conn rest
      { r with broadcasts := "chat" :: r.broadcasts }
    else handleFrames reg conn rest

/-- The handler from the registration point (source lines 360–390): insert
the handle into `s.clients` under the lock, send the private welcome — a
failed welcome write makes the handler return at line 376 *without*
deleting the handle (only the deferred `conn.Close()` runs) — otherwise
broadcast the join envelope and enter the message loop. -/
def handlerFromRegister (reg : List Nat) (conn : Nat) (welcomeOk : Bool)
    (frames : List FrameRes) : HandlerResult :=
  let reg1 := reg ++ [conn]
  if !welcomeOk then ⟨reg1, true, []⟩
  else
    let r := handleFrames reg1 conn frames
    { r with broadcasts := "join" :: r.broadcasts }

/-! ## Theorems.  Sanity checks on the string embedding first. -/

example : goSplit "1.2.3.4" '.' = ["1", "2", "3", "4"] := by decide
example : goSplit "" '.' = [""] := by decide
example : goSplit "2001:db8::1" ':' = ["2001", "db8", "", "1"] := by decide
example : maskIP "192.168.1.1" = "192:168:*" := by decide
example : maskIP "2001:db8::1" = "2001:db8:*" := by decide
example : maskIP "hello" = "hello" := by decide
example : maskIP "1.2.3" = "1.2.3" := by decide
example : goAtoi "42" = some 42 := by decide
example : goAtoi "-7" = some (-7) := by decide
example : goAtoi "abc" = none := by decide
example : goAtoi "" = none := by decide

/-- `splitOnChar` produces one more part than there are separators. -/
theorem splitOnChar_length (sep : Char) (l : List Char) :
    (splitOnChar sep l).length = l.count sep + 1 := by
  induction l with
  | nil => rfl
  | cons c rest ih =>
    cases hr : splitOnChar sep rest with
    | nil => rw [hr] at ih; simp at ih
    | cons h t =>
      rw [hr] at ih
      cases hcs : (c == sep) <;>
        simp [splitOnChar, hr, hcs, List.count_cons] at ih ⊢ <;> omega

/-- C10: maskIP is the identity on every input that does not have exactly
three dots and has fewer than two colons, and such a string is placed in an
envelope unchanged. -/
theorem maskIP_other_shapes_unchanged (s clientRegion uid color t : String)
    (h1 : s.toList.count '.' ≠ 3) (h2 : s.toList.count ':' < 2) :
    maskIP s = s ∧ (mkJoinMsg s clientRegion uid color t).ip = s := by
  have h1d : ¬ List.count '.' s.data = 3 := h1
  have h2d : ¬ 2 ≤ List.count ':' s.data :=
    fun hc => Nat.lt_irrefl _ (Nat.lt_of_le_of_lt hc h2)
  have hm : maskIP s = s := by
    simp [maskIP, maskIPv6Part, h1d, h2d]
  exact ⟨hm, by simp [mkJoinMsg, hm]⟩

/-- Witness for `maskIP_other_shapes_unchanged` at the concrete input
`"abc:def"` (one colon, no dots). -/
theorem maskIP_other_shapes_unchanged_witness :
    maskIP "abc:def" = "abc:def" ∧
      (mkJoinMsg "abc:def" "r" "u" "c" "t").ip = "abc:def" :=
  maskIP_other_shapes_unchanged "abc:def" "r" "u" "c" "t" (by decide) (by decide)

/-- C4 counterexample: on the IPv4 address `10.20.30.40` the code keeps only
the first two octets and replaces the dot separators with colons, so the
earlier octets and their separators are not left intact (the prefix
`"10.20.30"` does not survive). -/
theorem maskIP_ipv4_not_last_octet_only :
    maskIP "10.20.30.40" = "10:20:*" ∧
      strHasPrefix "10.20.30" (maskIP "10.20.30.40") = false := by
  decide

/-- C4 (amended): an input with exactly three dots is rebuilt from its first
two dot-separated parts joined by `:` plus `:*`; an input with at least two
colons (and not three dots) is rebuilt from its first two colon-separated
segments plus `:*`; and every broadcast envelope and `/online` row carries
`maskIP clientIP`, never the raw address. -/
theorem maskIP_and_envelopes_spec (ip : String) (c : ClientInfo)
    (clientRegion u col t content : String) :
    (ip.toList.count '.' = 3 →
      maskIP ip = (goSplit ip '.').getD 0 "" ++ ":" ++ (goSplit ip '.').getD 1 "" ++ ":*") ∧
    (ip.toList.count '.' ≠ 3 → 2 ≤ ip.toList.count ':' →
      maskIP ip = (goSplit ip ':').getD 0 "" ++ ":" ++ (goSplit ip ':').getD 1 "" ++ ":*") ∧
    (mkJoinMsg ip clientRegion u col t).ip = maskIP ip ∧
    (mkAbnormalLeaveMsg ip clientRegion u col t).ip = maskIP ip ∧
    (mkVoluntaryLeaveMsg ip clientRegion u col t).ip = maskIP ip ∧
    (mkChatMsg ip clientRegion u col t content).ip = maskIP ip ∧
    onlineRow c = onlineRowOf (maskIP c.ip) c.region c.userID := by
  refine ⟨?_, ?_, rfl, rfl, rfl, rfl, rfl⟩
  · intro h3
    have h3d : List.count '.' ip.data = 3 := h3
    have hlen : (goSplit ip '.').length = 4 := by
      simp [goSplit, splitOnChar_length, h3d]
    simp [maskIP, h3d, hlen]
  · intro h3 h2
    have h1d : ¬ List.count '.' ip.data = 3 := h3
    have h2d : 2 ≤ List.count ':' ip.data := h2
    have hlen : 2 ≤ (goSplit ip ':').length := by
      have hs := splitOnChar_length ':' ip.toList
      simp only [goSplit, List.length_map]
      omega
    simp [maskIP, maskIPv6Part, h1d, h2d, hlen]

/-- Witness for `maskIP_and_envelopes_spec`: the IPv4 and IPv6 cases at
concrete addresses. -/
theorem maskIP_and_envelopes_spec_witness :
    maskIP "192.168.1.1" =
        (goSplit "192.168.1.1" '.').getD 0 "" ++ ":" ++
          (goSplit "192.168.1.1" '.').getD 1 "" ++ ":*" ∧
    maskIP "2001:db8::1" =
        (goSplit "2001:db8::1" ':').getD 0 "" ++ ":" ++
          (goSplit "2001:db8::1" ':').getD 1 "" ++ ":*" :=
  ⟨(maskIP_and_envelopes_spec "192.168.1.1" ⟨"", "", "", ""⟩ "" "" "" "" "").1 (by decide),
   (maskIP_and_envelopes_spec "2001:db8::1" ⟨"", "", "", ""⟩ "" "" "" "" "").2.1
     (by decide) (by decide)⟩

/-- A White_Space character is unchanged by `goToLowerChar` (no space code
point lies in the ASCII range `A`–`Z`). -/
theorem goToLowerChar_of_space (c : Char) (h : isGoSpace c = true) :
    goToLowerChar c = c := by
  unfold goToLowerChar
  rw [if_neg]
  intro hc
  simp only [isGoSpace, Bool.or_eq_true, beq_iff_eq, Bool.and_eq_true,
    decide_eq_true_eq] at h
  omega

/-- A whitespace-only string trims to the empty string. -/
theorem goTrimSpace_of_all_space (t : String)
    (h : t.toList.all isGoSpace = true) : goTrimSpace t = "" := by
  have hdrop : List.dropWhile isGoSpace t.data = [] := by
    rw [List.dropWhile_eq_nil_iff]
    intro x hx
    exact (List.all_eq_true.mp h) x hx
  simp only [goTrimSpace, String.toList, hdrop, List.reverse_nil, List.dropWhile_nil]

/-- Lower-casing preserves whitespace-only content. -/
theorem goToLower_all_space (s : String)
    (h : s.toList.all isGoSpace = true) :
    (goToLower s).toList.all isGoSpace = true := by
  have hmap : (goToLower s).toList = s.toList.map goToLowerChar := rfl
  rw [hmap, List.all_eq_true]
  intro x hx
  rcases List.mem_map.mp hx with ⟨y, hy, rfl⟩
  have hys := (List.all_eq_true.mp h) y hy
  rw [goToLowerChar_of_space y hys]
  exact hys

/-- C7: password checking lower-cases and trims the inbound frame and
compares it with the lower-cased, trimmed secret; `" ABC "`, `"abc"` and
`"Abc"` all match the secret `"abc"`; an empty or whitespace-only frame
re-prompts (`repromptEmpty`, the connection stays open), any other
non-matching frame re-prompts as wrong, and a matching frame is accepted. -/
theorem password_step_spec (secret s : String) :
    passwordStep "abc" " ABC " = .accepted ∧
    passwordStep "abc" "abc" = .accepted ∧
    passwordStep "abc" "Abc" = .accepted ∧
    (s.toList.all isGoSpace = true → passwordStep secret s = .repromptEmpty) ∧
    (goTrimSpace (goToLower s) ≠ "" →
      goTrimSpace (goToLower s) ≠ goTrimSpace (goToLower secret) →
      passwordStep secret s = .repromptWrong) ∧
    (goTrimSpace (goToLower s) ≠ "" →
      goTrimSpace (goToLower s) = goTrimSpace (goToLower secret) →
      passwordStep secret s = .accepted) := by
  refine ⟨by decide, by decide, by decide, ?_, ?_, ?_⟩
  · intro h
    have he : goTrimSpace (goToLower s) = "" :=
      goTrimSpace_of_all_space _ (goToLower_all_space s h)
    simp [passwordStep, he]
  · intro h1 h2
    simp [passwordStep, h1, h2]
  · intro h1 h2
    have h1' : goTrimSpace (goToLower secret) ≠ "" := by rw [← h2]; exact h1
    simp [passwordStep, h1', h2]

/-- Witness for `password_step_spec` with secret `"abc"`: the whitespace-only
frame `"  "` re-prompts, the frame `"xyz"` is rejected as wrong, and the
frame `" ABC "` is accepted. -/
theorem password_step_spec_witness :
    passwordStep "abc" "  " = .repromptEmpty ∧
    passwordStep "abc" "xyz" = .repromptWrong ∧
    passwordStep "abc" " ABC " = .accepted :=
  ⟨(password_step_spec "abc" "  ").2.2.2.1 (by decide),
   (password_step_spec "abc" "xyz").2.2.2.2.1 (by decide) (by decide),
   (password_step_spec "abc" " ABC ").1⟩

/-- C8 counterexample: the frame `"a\tb"` contains the control character
TAB (code point 9 < 32), and the identity step keeps it: only `\n` and `\r`
are stripped, not all control characters. -/
theorem identity_sanitize_keeps_control_char :
    identityStep "a\tb" 0 0 0 = "a\tb" ∧
    ((identityStep "a\tb" 0 0 0).toList.contains '\t') = true ∧
    ('\t'.toNat < 32) = true := by
  decide

/-- C8 (amended): a whitespace-only frame yields a random identity of the
form adjective ++ noun ++ numeral with the numeral in `100..999` and the
words drawn from the fixed lists; a frame that is non-empty after trimming
is trimmed, stripped of `\n` and `\r` only, and used as the identity; the
step consults no registry, so equal inputs give equal identities regardless
of who is online. -/
theorem identity_step_spec (content : String) (aIdx nIdx r : Nat) :
    (goTrimSpace content = "" →
      identityStep content aIdx nIdx r = generateRandomID aIdx nIdx r) ∧
    (goTrimSpace content ≠ "" →
      identityStep content aIdx nIdx r = sanitizeID (goTrimSpace content)) ∧
    (r < 900 → 100 ≤ r + 100 ∧ r + 100 ≤ 999) ∧
    (aIdx < adjectives.length → nIdx < nouns.length →
      ∃ a ∈ adjectives, ∃ b ∈ nouns,
        generateRandomID aIdx nIdx r = a ++ b ++ toString (r + 100)) := by
  refine ⟨?_, ?_, ?_, ?_⟩
  · intro h; simp [identityStep, h]
  · intro h; simp [identityStep, h]
  · intro h; omega
  · intro ha hb
    refine ⟨adjectives.getD aIdx "", ?_, nouns.getD nIdx "", ?_, rfl⟩
    · rw [List.getD_eq_getElem _ _ ha]; exact List.getElem_mem ha
    · rw [List.getD_eq_getElem _ _ hb]; exact List.getElem_mem hb

/-- Witness for `identity_step_spec`: an empty frame draws the random
identity `快乐小猫100`; the frame `" bo\rb "` is trimmed and stripped of the
carriage return. -/
theorem identity_step_spec_witness :
    identityStep "" 0 0 0 = generateRandomID 0 0 0 ∧
    identityStep " bo\rb " 0 0 0 = sanitizeID (goTrimSpace " bo\rb ") ∧
    identityStep " bo\rb " 0 0 0 = "bob" :=
  ⟨(identity_step_spec "" 0 0 0).1 (by decide),
   (identity_step_spec " bo\rb " 0 0 0).2.1 (by decide),
   by decide⟩

/-- C9 counterexample: `127.0.0.2` is a loopback address, yet it matches
none of the code's literal prefixes, so the lookup proceeds to the network
call instead of returning the local-network sentinel. -/
theorem loopback_not_short_circuited :
    isLoopbackV4 "127.0.0.2" = true ∧
    (getIPRegion "127.0.0.2" ⟨true, false, 200, none⟩).networkCalled = true ∧
    (getIPRegion "127.0.0.2" ⟨true, false, 200, none⟩).region = "归属地查询-网络超时" := by
  decide

/-- C9 (amended): the lookup never propagates an error; an address matching
one of the literal prefixes `127.0.0.1`, `192.168.`, `10.`, `172.` returns
the local-network sentinel with no network call; otherwise the network is
called and every failure (transport error, body-read error or non-200
status, JSON-parse failure) yields a sentinel failure string, while a
parsed city is trimmed with an empty/`"null"` fallback. -/
theorem getIPRegion_spec (ip : String) (net : NetOracle) :
    (getIPRegion ip net).networkCalled =
        !(localIPPrefixes.any (fun p => strHasPrefix p ip)) ∧
    (localIPPrefixes.any (fun p => strHasPrefix p ip) = true →
      getIPRegion ip net = ⟨"本地/内网IP-无公网归属", false⟩) ∧
    (localIPPrefixes.any (fun p => strHasPrefix p ip) = false →
      (net.getErr = true → getIPRegion ip net = ⟨"归属地查询-网络超时", true⟩) ∧
      (net.getErr = false → (net.bodyReadErr || net.statusCode != 200) = true →
        getIPRegion ip net = ⟨"归属地查询-接口返回失败", true⟩) ∧
      (net.getErr = false → (net.bodyReadErr || net.statusCode != 200) = false →
        net.parsedCity = none → getIPRegion ip net = ⟨"归属地查询-解析失败", true⟩) ∧
      (∀ rawCity, net.getErr = false → (net.bodyReadErr || net.statusCode != 200) = false →
        net.parsedCity = some rawCity →
        getIPRegion ip net =
          ⟨if goTrimSpace rawCity == "" || goTrimSpace rawCity == "null" then "未知城市"
            else goTrimSpace rawCity, true⟩)) := by
  refine ⟨?_, ?_, ?_⟩
  · by_cases hp : localIPPrefixes.any (fun p => strHasPrefix p ip) = true
    · simp [getIPRegion, hp]
    · rw [Bool.not_eq_true] at hp
      rcases hg : net.getErr
      · rcases hb : (net.bodyReadErr || net.statusCode != 200)
        · rcases hc : net.parsedCity with _ | rawCity
          · simp [getIPRegion, hp, hg, hb, hc]
          · by_cases he : (goTrimSpace rawCity == "" || goTrimSpace rawCity == "null") = true <;>
              simp [getIPRegion, hp, hg, hb, hc, he]
        · simp [getIPRegion, hp, hg, hb]
      · simp [getIPRegion, hp, hg]
  · intro hp; simp [getIPRegion, hp]
  · intro hp
    refine ⟨?_, ?_, ?_, ?_⟩
    · intro hg; simp [getIPRegion, hp, hg]
    · intro hg hb; simp [getIPRegion, hp, hg, hb]
    · intro hg hb hc; simp [getIPRegion, hp, hg, hb, hc]
    · intro rawCity hg hb hc
      by_cases he : (goTrimSpace rawCity == "" || goTrimSpace rawCity == "null") = true <;>
        simp [getIPRegion, hp, hg, hb, hc, he]

/-- Witness for `getIPRegion_spec`: a private address is short-circuited
without a network call, and a public address with a successful response
yields the trimmed city. -/
theorem getIPRegion_spec_witness :
    getIPRegion "192.168.0.5" ⟨true, true, 500, none⟩ = ⟨"本地/内网IP-无公网归属", false⟩ ∧
    getIPRegion "8.8.8.8" ⟨false, false, 200, some " 北京 "⟩ = ⟨"北京", true⟩ :=
  ⟨(getIPRegion_spec "192.168.0.5" ⟨true, true, 500, none⟩).2.1 (by decide),
   by
    have h := ((getIPRegion_spec "8.8.8.8" ⟨false, false, 200, some " 北京 "⟩).2.2
      (by decide)).2.2.2 " 北京 " (by decide) (by decide) (by decide)
    rw [h]; decide⟩

theorem fanoutGo_attempted (ok : Nat → Bool) (reg snap : List Nat) :
    (fanoutGo ok reg snap).attempted = snap := by
  induction snap generalizing reg with
  | nil => rfl
  | cons c rest ih =>
    by_cases h : ok c <;> simp [fanoutGo, h, ih]

theorem fanoutGo_closed (ok : Nat → Bool) (reg snap : List Nat) :
    (fanoutGo ok reg snap).closed = snap.filter (fun c => !(ok c)) := by
  induction snap generalizing reg with
  | nil => rfl
  | cons c rest ih =>
    by_cases h : ok c <;> simp [fanoutGo, h, ih]

theorem fanoutGo_registry (ok : Nat → Bool) (reg snap : List Nat) :
    (fanoutGo ok reg snap).registry =
      reg.filter (fun x => ok x || !(List.elem x snap)) := by
  induction snap generalizing reg with
  | nil => simp [fanoutGo]
  | cons c rest ih =>
    by_cases h : ok c
    · simp only [fanoutGo, h, if_pos, ih]
      apply List.filter_congr
      intro x _
      by_cases hx : x = c
      · subst hx; simp [h]
      · simp [List.elem_cons, hx]
    · simp only [fanoutGo, h, if_neg, Bool.false_eq_true, not_false_iff, ih,
        List.filter_filter]
      apply List.filter_congr
      intro x _
      by_cases hx : x = c
      · subst hx; simp [h, List.elem_cons]
      · simp [List.elem_cons, hx]

/-- C3: fanning out one envelope attempts delivery to every snapshot entry
exactly once and in snapshot order (a failing connection never aborts the
walk), closes exactly the failing transports, and leaves exactly the
non-failing connections registered — so a failing handle is removed after
its single failed delivery attempt. -/
theorem broadcast_fanout_spec (clients : List Nat) (ok : Nat → Bool) :
    (fanout ok clients).attempted = clients ∧
    (fanout ok clients).closed = clients.filter (fun c => !(ok c)) ∧
    (fanout ok clients).registry = clients.filter ok := by
  refine ⟨fanoutGo_attempted ok clients clients,
    fanoutGo_closed ok clients clients, ?_⟩
  rw [fanout, fanoutGo_registry]
  apply List.filter_congr
  intro x hx
  simp [List.elem_eq_mem, hx]

/-- C1: after `/close 10` then `/close 3` with the ten-minute plan's
five-minute reminder firing concurrently with the second `/close`, the new
plan is indeed the three-minute one (generation 2), but the superseded
generation-1 reminder still publishes its "5 minutes remain" notice, and it
leaves behind a pending generation-1 one-minute reminder that the new plan
never cancelled — the claimed atomic cancellation does not hold. -/
theorem close_superseded_timer_still_publishes :
    raceRun.shutdownTime = 3 ∧
    raceRun.gen = 2 ∧
    raceRun.published.contains (1, NoticeKind.fiveMin) = true ∧
    (raceRun.slice.any (fun id =>
      match raceRun.pool.get? id with
      | some t => t.gen == 1 && t.status == TStatus.pending
      | none => false)) = true := by
  decide

/-- C5: a `/close` argument that fails to parse as an integer, or parses to
a non-positive integer, produces exactly one private error reply and no
state change at all — same timers, same plan, nothing broadcast — and when
no plan existed before, the status query still reports unscheduled. -/
theorem close_invalid_arg_spec (s : Srv) (now : Nat) (arg : String)
    (e : Int)
    (h : goAtoi arg = none ∨ ∃ m, goAtoi arg = some m ∧ m ≤ 0) :
    handleCloseArg s now arg = ⟨s, [invalidMinutesMsg]⟩ ∧
    (s.shutdownTime = 0 →
      statusReply (handleCloseArg s now arg).state.shutdownTime e = unscheduledMsg) := by
  have hmain : handleCloseArg s now arg = ⟨s, [invalidMinutesMsg]⟩ := by
    rcases h with hn | ⟨m, hm, hle⟩
    · simp [handleCloseArg, hn]
    · simp [handleCloseArg, hm, hle]
  refine ⟨hmain, ?_⟩
  intro h0
  rw [hmain]
  simp [statusReply, h0]

/-- Witness for `close_invalid_arg_spec`: the argument `"abc"` on the
initial state changes nothing and the status stays unscheduled. -/
theorem close_invalid_arg_spec_witness :
    handleCloseArg srvInit 0 "abc" = ⟨srvInit, [invalidMinutesMsg]⟩ ∧
    statusReply (handleCloseArg srvInit 0 "abc").state.shutdownTime 0 = unscheduledMsg :=
  ⟨(close_invalid_arg_spec srvInit 0 "abc" 0 (Or.inl (by decide))).1,
   (close_invalid_arg_spec srvInit 0 "abc" 0 (Or.inl (by decide))).2 (by decide)⟩

/-- C6: a plan with `minutes > 5` raises the five-minute notice at
`minutes-5`, then the nested one-minute notice at `minutes-1`; a plan with
`1 < minutes ≤ 5` raises a single one-minute notice at `minutes-1`; every
plan ends at `minutes` with the final notice, the grace sleep, the closing
of every registered connection, and process exit; and the no-argument
status reply reports the remaining minutes floored at zero, or the
unscheduled notice while `shutdownTime` is still its initial zero. -/
theorem close_schedule_timeline (minutes : Nat) :
    (5 < minutes → scheduleEvents minutes =
      [(minutes - 5, .fiveMinNotice), (minutes - 1, .oneMinNotice),
       (minutes, .finalNotice), (minutes, .graceSleep),
       (minutes, .closeAllConns), (minutes, .exitProcess)]) ∧
    (1 < minutes → minutes ≤ 5 → scheduleEvents minutes =
      [(minutes - 1, .oneMinNotice),
       (minutes, .finalNotice), (minutes, .graceSleep),
       (minutes, .closeAllConns), (minutes, .exitProcess)]) ∧
    (minutes = 1 → scheduleEvents minutes =
      [(1, .finalNotice), (1, .graceSleep), (1, .closeAllConns), (1, .exitProcess)]) ∧
    (∀ st e : Int, 0 < st → statusReply st e = remainingMsg (max (st - e) 0)) ∧
    (∀ e : Int, statusReply 0 e = unscheduledMsg) := by
  refine ⟨?_, ?_, ?_, ?_, ?_⟩
  · intro h5
    have h14 : minutes - 5 + 4 = minutes - 1 := by omega
    simp [scheduleEvents, armedTimerList, timerEvents, h5, h14]
  · intro h1 h5
    have h5' : ¬ 5 < minutes := by omega
    simp [scheduleEvents, armedTimerList, timerEvents, h5', h1]
  · intro h1
    subst h1
    decide
  · intro st e h0
    rw [statusReply, if_pos h0]
    rcases le_or_lt 0 (st - e) with hle | hlt
    · have hnl : ¬ st - e < 0 := by omega
      simp only [hnl, if_false]
      congr 1
      omega
    · simp only [hlt, if_true]
      congr 1
      omega
  · intro e
    rfl

/-- Witness for `close_schedule_timeline` at `minutes = 7`, `minutes = 3`
and concrete status queries. -/
theorem close_schedule_timeline_witness :
    scheduleEvents 7 =
      [(2, .fiveMinNotice), (6, .oneMinNotice), (7, .finalNotice),
       (7, .graceSleep), (7, .closeAllConns), (7, .exitProcess)] ∧
    scheduleEvents 3 =
      [(2, .oneMinNotice), (3, .finalNotice), (3, .graceSleep),
       (3, .closeAllConns), (3, .exitProcess)] ∧
    statusReply 10 12 = remainingMsg 0 ∧
    statusReply 0 2 = unscheduledMsg :=
  ⟨(close_schedule_timeline 7).1 (by decide),
   (close_schedule_timeline 3).2.1 (by decide) (by decide),
   (close_schedule_timeline 0).2.2.2.1 10 12 (by decide),
   (close_schedule_timeline 0).2.2.2.2 2⟩

/-- C2: when the welcome write fails immediately after registration, the
handler returns while its handle is still in the registry, violating the
claimed invariant; on the normal `/exit` path the handle is removed before
the handler returns. -/
theorem handler_welcome_failure_leaves_stale_registration :
    (handlerFromRegister [] 7 false []).returned = true ∧
    (handlerFromRegister [] 7 false []).registry = [7] ∧
    (handlerFromRegister [] 7 true [.frame "/exit"]).returned = true ∧
    (handlerFromRegister [] 7 true [.frame "/exit"]).registry = [] := by
  decide

end Chatroom
